import Mathlib

/-!
# Verification of the hospital-management backend (`main.py`, `schemas.py`)

Shallow embedding of the FastAPI handlers over a MongoDB-like document store.
Python floats are modelled as exact rationals (`ℚ`); MongoDB documents become
Lean structures whose fields accessed via `.get(key, default)` in the source
are `Option`-typed, with the default recovered by `Option.getD`.  The store
`db` is a record of collections (lists of documents) plus a fresh-id counter.

Error behaviour: a `fastapi.HTTPException` is modelled as `ApiError.http
status detail`; an *uncaught* Python exception (in particular
`bson.errors.InvalidId` raised by `ObjectId(s)` on a malformed string, which
FastAPI turns into an HTTP 500) is modelled as `ApiError.invalidId` — it is a
distinct constructor precisely because it is not an `HTTPException`.

Each handler is a function `DB → args → DB × result`, returning the store
after the call, so that partial writes before an error would be visible.
-/

deriving instance DecidableEq for Except

/-- A Python `ObjectId(s)` on a string succeeds iff `s` is a 24-character
hexadecimal string (`bson.ObjectId.is_valid` for `str` input). -/
def hexChar (c : Char) : Bool :=
  c.isDigit || (('a' ≤ c && c ≤ 'f') || ('A' ≤ c && c ≤ 'F'))

def objectIdValid (s : String) : Bool :=
  s.length == 24 && s.toList.all hexChar

/-- Python truthiness of an `Optional[str]` value: `None` and `""` are falsy. -/
def truthy : Option String → Bool
  | none => false
  | some s => !s.isEmpty

/-- `email.split("@")[0]`: the local part of an e-mail address. -/
def emailLocalPart (email : String) : String :=
  (email.splitOn "@").headD ""

/-- `user` collection document (schemas.py `User`, plus its Mongo `_id`). -/
structure UserDoc where
  id : String
  name : String
  email : String
  role : String
  deriving Repr, DecidableEq

/-- `doctorprofile` document. `rate_per_point` is read via
`profile.get("rate_per_point", 100.0)`, hence `Option ℚ`. -/
structure DoctorProfileDoc where
  user_id : String
  rate_per_point : Option ℚ
  deriving Repr, DecidableEq

/-- `patientprofile` document; `insurance_policy_id` is optional. -/
structure PatientProfileDoc where
  user_id : String
  insurance_policy_id : Option String
  deriving Repr, DecidableEq

/-- `appointment` document (only the fields the verified handlers read). -/
structure AppointmentDoc where
  id : String
  patient_id : String
  doctor_id : String
  status : String
  deriving Repr, DecidableEq

/-- `prescription` document, as written by `add_prescription`. -/
structure PrescriptionDoc where
  appointment_id : String
  doctor_id : String
  patient_id : String
  notes : Option String
  medications : List String
  follow_up_date : Option String
  deriving Repr, DecidableEq

/-- `operation` document. `name` and `base_price` are read with `.get`. -/
structure OperationDoc where
  id : String
  name : Option String
  base_price : Option ℚ
  deriving Repr, DecidableEq

/-- `roomtype` document; looked up by its `name` field. -/
structure RoomtypeDoc where
  id : String
  name : Option String
  price_per_day : Option ℚ
  deriving Repr, DecidableEq

/-- `insurancepolicy` document. `allowed_roomtypes` and `coverage_percent`
are read with `.get(..., default)`. -/
structure InsurancePolicyDoc where
  id : String
  name : String
  allowed_roomtypes : Option (List String)
  coverage_percent : Option ℚ
  deriving Repr, DecidableEq

/-- One entry of the billing `details` dict: `{"name": ..., "price": ...}`. -/
structure ItemDetail where
  name : Option String
  price : ℚ
  deriving Repr, DecidableEq

/-- The billing `details` dict: optional `"operation"`, `"room"` and
`"insurance_note"` keys. -/
structure BillingDetails where
  operation : Option ItemDetail
  room : Option ItemDetail
  insurance_note : Option String
  deriving Repr, DecidableEq

/-- `billing` document persisted by `generate_bill`. -/
structure BillingDoc where
  appointment_id : String
  subtotal : ℚ
  insurance_discount : ℚ
  total : ℚ
  details : BillingDetails
  deriving Repr, DecidableEq

/-- The document store: one list per collection used by the verified
handlers, plus a counter for generated ids. -/
structure DB where
  user : List UserDoc
  doctorprofile : List DoctorProfileDoc
  patientprofile : List PatientProfileDoc
  appointment : List AppointmentDoc
  prescription : List PrescriptionDoc
  billing : List BillingDoc
  operation : List OperationDoc
  roomtype : List RoomtypeDoc
  insurancepolicy : List InsurancePolicyDoc
  nextId : Nat
  deriving Repr, DecidableEq

def dbEmpty : DB :=
  { user := [], doctorprofile := [], patientprofile := [], appointment := [],
    prescription := [], billing := [], operation := [], roomtype := [],
    insurancepolicy := [], nextId := 0 }

/-- Modelled from the spec: `database.py` (providing `db`, `create_document`
and `get_documents`) is not under `src/`.  Per spec §4.1 the accessor
contract is `create(collection, fields) → id` with "no validation beyond
schema typing at the API boundary; no transactions", so document creation is
modelled as appending the given fields unchanged to the collection and
returning a fresh generated id; `find`/`find_one` are list filtering /
`List.find?` on field equality. -/
def freshId (db : DB) : String :=
  "oid" ++ toString db.nextId

/-- Errors a handler call can surface: `http s d` is a raised
`HTTPException(status_code=s, detail=d)`; `invalidId` is an uncaught
`bson.errors.InvalidId` from `ObjectId(...)` on a malformed string, which
FastAPI reports as HTTP 500, not 400. -/
inductive ApiError where
  | http (status : Nat) (detail : String)
  | invalidId
  deriving Repr, DecidableEq

/-- `to_object_id` (main.py lines 27–31): returns the id if parseable,
otherwise raises `HTTPException(400, "Invalid id")`.  NOTE: this helper is
defined in the source but never called by any handler. -/
def to_object_id (id_str : String) : Except ApiError String :=
  if objectIdValid id_str then Except.ok id_str
  else Except.error (ApiError.http 400 "Invalid id")

/-- Body of `POST /api/appointment/{id}/bill` (`BillingRequest`). -/
structure BillingRequest where
  operation_id : Option String
  roomtype_name : Option String
  deriving Repr, DecidableEq

/-- Response of `generate_bill` (minus the store side effect). -/
structure BillResponse where
  billing_id : String
  subtotal : ℚ
  discount : ℚ
  total : ℚ
  details : BillingDetails
  deriving Repr, DecidableEq

/-- main.py lines 201–206: `if body.operation_id:` fetch the operation by
`ObjectId(body.operation_id)` (404 if missing), charge
`float(op.get("base_price", 0))`, record `{"name": ..., "price": ...}`. -/
def operationCharge (db : DB) (body : BillingRequest) :
    Except ApiError (ℚ × Option ItemDetail) :=
  if truthy body.operation_id = false then Except.ok (0, none) else
  if objectIdValid (body.operation_id.getD "") = false then Except.error ApiError.invalidId else
  match db.operation.find? (fun o => o.id == body.operation_id.getD "") with
  | none => Except.error (ApiError.http 404 "Operation not found")
  | some op =>
      Except.ok (op.base_price.getD 0,
        some { name := op.name, price := op.base_price.getD 0 })

/-- main.py lines 208–213: `if body.roomtype_name:` fetch the room type by
name (404 if missing), charge `float(room.get("price_per_day", 0))`. -/
def roomCharge (db : DB) (body : BillingRequest) :
    Except ApiError (ℚ × Option ItemDetail) :=
  if truthy body.roomtype_name = false then Except.ok (0, none) else
  match db.roomtype.find? (fun r => r.name == body.roomtype_name) with
  | none => Except.error (ApiError.http 404 "Room type not found")
  | some room =>
      Except.ok (room.price_per_day.getD 0,
        some { name := room.name, price := room.price_per_day.getD 0 })

/-- main.py lines 222–223: the advisory note — present exactly when a room
type was requested and it is not in `pol.get("allowed_roomtypes", [])`. -/
def insNote (pol : InsurancePolicyDoc) (body : BillingRequest) : Option String :=
  if truthy body.roomtype_name &&
      !((pol.allowed_roomtypes.getD []).contains (body.roomtype_name.getD ""))
  then some "Selected room type not covered by insurance" else none

/-- main.py lines 216–225: fetch the patient profile by `user_id`; if it
exists and has a truthy `insurance_policy_id`, fetch the policy by
`ObjectId(...)` (an invalid stored id string raises `InvalidId`); if the
policy exists, add an advisory note when a requested room type is not in
`pol.get("allowed_roomtypes", [])` and set
`discount = subtotal * (float(pol.get("coverage_percent", 0)) / 100.0)`;
in every other case the discount stays `0.0`. -/
def insuranceStep (db : DB) (appt : AppointmentDoc) (body : BillingRequest)
    (subtotal : ℚ) : Except ApiError (ℚ × Option String) :=
  match db.patientprofile.find? (fun p => p.user_id == appt.patient_id) with
  | none => Except.ok (0, none)
  | some patient =>
    if truthy patient.insurance_policy_id = false then Except.ok (0, none) else
    if objectIdValid (patient.insurance_policy_id.getD "") = false then
      Except.error ApiError.invalidId else
    match db.insurancepolicy.find?
        (fun q => q.id == patient.insurance_policy_id.getD "") with
    | none => Except.ok (0, none)
    | some pol =>
      Except.ok (subtotal * (pol.coverage_percent.getD 0 / 100), insNote pol body)

/-- `POST /api/appointment/{appointment_id}/bill` (main.py lines 192–235):
parse the appointment id (`ObjectId(appointment_id)`, uncaught on failure),
fetch the appointment (404 if missing), accumulate the operation and room
charges into `subtotal` and `details`, run the insurance lookup, compute
`total = max(0.0, subtotal - discount)`, persist the `billing` document and
return `{billing_id, subtotal, discount, total, details}`. -/
def generate_bill (db : DB) (appointment_id : String) (body : BillingRequest) :
    DB × Except ApiError BillResponse :=
  if objectIdValid appointment_id = false then (db, Except.error ApiError.invalidId) else
  match db.appointment.find? (fun a => a.id == appointment_id) with
  | none => (db, Except.error (ApiError.http 404 "Appointment not found"))
  | some appt =>
    match operationCharge db body with
    | Except.error e => (db, Except.error e)
    | Except.ok (s1, opDetail) =>
      match roomCharge db body with
      | Except.error e => (db, Except.error e)
      | Except.ok (s2, roomDetail) =>
        let subtotal := s1 + s2
        match insuranceStep db appt body subtotal with
        | Except.error e => (db, Except.error e)
        | Except.ok (discount, note) =>
          let total := max 0 (subtotal - discount)
          let details : BillingDetails :=
            { operation := opDetail, room := roomDetail, insurance_note := note }
          let bill : BillingDoc :=
            { appointment_id := appointment_id, subtotal := subtotal,
              insurance_discount := discount, total := total, details := details }
          ({ db with billing := db.billing ++ [bill], nextId := db.nextId + 1 },
           Except.ok { billing_id := freshId db, subtotal := subtotal,
                       discount := discount, total := total, details := details })

/-- Body of `POST /api/login` (`LoginRequest`). -/
structure LoginRequest where
  email : String
  role : String
  deriving Repr, DecidableEq

/-- `POST /api/login` (main.py lines 38–50): look up a user by
`(email, role)`; if absent, create one with name = local part of the email,
re-fetch it by its new id, and seed a `doctorprofile`
(`rate_per_point = 100.0`) or `patientprofile` depending on the role.
Returns the (possibly fresh) user. -/
def login (db : DB) (req : LoginRequest) : DB × Option UserDoc :=
  match db.user.find? (fun u => u.email == req.email && u.role == req.role) with
  | some u => (db, some u)
  | none =>
    let userId := freshId db
    let newUser : UserDoc :=
      { id := userId, name := emailLocalPart req.email,
        email := req.email, role := req.role }
    let db1 : DB := { db with user := db.user ++ [newUser], nextId := db.nextId + 1 }
    let found := db1.user.find? (fun u => u.id == userId)
    let docProfile : DoctorProfileDoc := { user_id := userId, rate_per_point := some 100 }
    let patProfile : PatientProfileDoc := { user_id := userId, insurance_policy_id := none }
    let db2 : DB :=
      if req.role == "doctor" then
        { db1 with doctorprofile := db1.doctorprofile ++ [docProfile] }
      else db1
    let db3 : DB :=
      if req.role == "patient" then
        { db2 with patientprofile := db2.patientprofile ++ [patProfile] }
      else db2
    (db3, found)

/-- Response of `GET /api/doctor/{doctor_id}/stats`. -/
structure StatsResponse where
  treated_patients : Nat
  points : Nat
  salary : ℚ
  deriving Repr, DecidableEq

/-- `GET /api/doctor/{doctor_id}/stats` (main.py lines 67–76): count the
doctor's appointments with status `"completed"`, set `points` to that count,
read `rate_per_point` from the doctor profile (default `100.0` when the
field or the whole profile is missing) and return
`salary = points * rate`. -/
def doctor_stats (db : DB) (doctor_id : String) : StatsResponse :=
  let completed := db.appointment.filter
    (fun a => a.doctor_id == doctor_id && a.status == "completed")
  let count := completed.length
  let points := count
  let rate : ℚ :=
    match db.doctorprofile.find? (fun p => p.user_id == doctor_id) with
    | some profile => profile.rate_per_point.getD 100
    | none => 100
  { treated_patients := count, points := points, salary := (points : ℚ) * rate }

/-- Spec-side restatement: the number of the doctor's appointments with
status `"completed"` (the `N` of claim C8). -/
def completedCount (db : DB) (doctor_id : String) : Nat :=
  db.appointment.countP (fun a => a.doctor_id == doctor_id && a.status == "completed")

/-- Spec-side restatement: the doctor profile's `rate_per_point`, defaulting
to `100.0` when no profile (or no field) exists (the `R` of claim C8). -/
def doctorRate (db : DB) (doctor_id : String) : ℚ :=
  match db.doctorprofile.find? (fun p => p.user_id == doctor_id) with
  | some profile => profile.rate_per_point.getD 100
  | none => 100

/-- Body of `POST /api/doctor/{doctor_id}/prescription`. -/
structure PrescriptionRequest where
  appointment_id : String
  notes : Option String
  medications : List String
  follow_up_date : Option String
  deriving Repr, DecidableEq

/-- `POST /api/doctor/{doctor_id}/prescription` (main.py lines 157–170):
fetch the appointment by `ObjectId(body.appointment_id)` (uncaught
`InvalidId` on a malformed string, 404 when absent), then persist a
prescription whose `patient_id` is copied from the fetched appointment
document (`appt["patient_id"]`). -/
def add_prescription (db : DB) (doctor_id : String) (body : PrescriptionRequest) :
    DB × Except ApiError String :=
  if objectIdValid body.appointment_id = false then (db, Except.error ApiError.invalidId) else
  match db.appointment.find? (fun a => a.id == body.appointment_id) with
  | none => (db, Except.error (ApiError.http 404 "Appointment not found"))
  | some appt =>
    let presc : PrescriptionDoc :=
      { appointment_id := body.appointment_id, doctor_id := doctor_id,
        patient_id := appt.patient_id, notes := body.notes,
        medications := body.medications, follow_up_date := body.follow_up_date }
    ({ db with prescription := db.prescription ++ [presc], nextId := db.nextId + 1 },
     Except.ok (freshId db))

/-- Body of `POST /api/admin/insurance` (`InsuranceCreate`, main.py lines
294–297).  NOTE: unlike `schemas.Insurancepolicy`, this pydantic model puts
NO bound (`ge`/`le`) on `coverage_percent`; any float is accepted. -/
structure InsuranceCreate where
  name : String
  allowed_roomtypes : List String
  coverage_percent : ℚ
  deriving Repr, DecidableEq

/-- `POST /api/admin/insurance` (main.py lines 299–302): persist
`body.model_dump()` into the `insurancepolicy` collection unchanged. -/
def create_insurance (db : DB) (body : InsuranceCreate) : DB × String :=
  let insId := freshId db
  let pol : InsurancePolicyDoc :=
    { id := insId, name := body.name,
      allowed_roomtypes := some body.allowed_roomtypes,
      coverage_percent := some body.coverage_percent }
  let db1 : DB :=
    { db with insurancepolicy := db.insurancepolicy ++ [pol], nextId := db.nextId + 1 }
  (db1, insId)

/-- Spec-side restatement of the `schemas.Insurancepolicy` constraint
`coverage_percent: float = Field(0, ge=0, le=100)`. -/
def coverageInRange (pol : InsurancePolicyDoc) : Prop :=
  0 ≤ pol.coverage_percent.getD 0 ∧ pol.coverage_percent.getD 0 ≤ 100

/-! ## Concrete store used by witnesses -/

def apptA : AppointmentDoc :=
  { id := "aaaaaaaaaaaaaaaaaaaaaaaa", patient_id := "p1",
    doctor_id := "d1", status := "completed" }

def apptE : AppointmentDoc :=
  { id := "eeeeeeeeeeeeeeeeeeeeeeee", patient_id := "p2",
    doctor_id := "d1", status := "scheduled" }

def opSurgery : OperationDoc :=
  { id := "bbbbbbbbbbbbbbbbbbbbbbbb", name := some "surgery",
    base_price := some 500 }

def roomDeluxe : RoomtypeDoc :=
  { id := "f0f0f0f0f0f0f0f0f0f0f0f0", name := some "deluxe",
    price_per_day := some 300 }

def profileP1 : PatientProfileDoc :=
  { user_id := "p1", insurance_policy_id := some "cccccccccccccccccccccccc" }

def polAcme : InsurancePolicyDoc :=
  { id := "cccccccccccccccccccccccc", name := "acme",
    allowed_roomtypes := some ["normal"], coverage_percent := some 20 }

/-- A small concrete store: one completed appointment for patient `p1` (who
has a 20%-coverage policy allowing only `"normal"` rooms), one scheduled
appointment for `p2` (no patient profile), one operation priced 500 and one
room type priced 300 per day. -/
def dbW : DB :=
  { user := [], doctorprofile := [], patientprofile := [profileP1],
    appointment := [apptA, apptE], prescription := [], billing := [],
    operation := [opSurgery], roomtype := [roomDeluxe],
    insurancepolicy := [polAcme], nextId := 7 }

def billBodyFull : BillingRequest :=
  { operation_id := some "bbbbbbbbbbbbbbbbbbbbbbbb", roomtype_name := some "deluxe" }

/-- Spec §8 sample: operation 500 plus room 300 under a 20% policy gives
subtotal 800, discount 160, total 640 (and, the room being disallowed, the
advisory note). -/
theorem generate_bill_sample_800_160_640 :
    (generate_bill dbW "aaaaaaaaaaaaaaaaaaaaaaaa" billBodyFull).2 =
      Except.ok
        { billing_id := "oid7", subtotal := 800, discount := 160, total := 640,
          details :=
            { operation := some { name := some "surgery", price := 500 },
              room := some { name := some "deluxe", price := 300 },
              insurance_note := some "Selected room type not covered by insurance" } } := by
  have h1 : objectIdValid "aaaaaaaaaaaaaaaaaaaaaaaa" = true := by decide
  have h2 : objectIdValid "bbbbbbbbbbbbbbbbbbbbbbbb" = true := by decide
  have h3 : objectIdValid "cccccccccccccccccccccccc" = true := by decide
  have h4 : "bbbbbbbbbbbbbbbbbbbbbbbb".isEmpty = false := by decide
  have h5 : "deluxe".isEmpty = false := by decide
  have h6 : "cccccccccccccccccccccccc".isEmpty = false := by decide
  have h7 : insNote polAcme billBodyFull = some "Selected room type not covered by insurance" := by
    decide
  simp [generate_bill, dbW, apptA, apptE, billBodyFull, operationCharge, roomCharge,
    insuranceStep, opSurgery, roomDeluxe, profileP1, polAcme, truthy, freshId,
    h1, h2, h3, h4, h5, h6, h7, List.find?]
  norm_num [max_def]
  exact ⟨by decide, by decide⟩

/-! ## Helper shapes and shared lemmas -/

/-- The `billing` document carrying the four values of a bill response. -/
def billOf (appointment_id : String) (r : BillResponse) : BillingDoc :=
  { appointment_id := appointment_id, subtotal := r.subtotal,
    insurance_discount := r.discount, total := r.total, details := r.details }

/-- The prescription document `add_prescription` persists for a fetched
appointment. -/
def prescOf (doctor_id : String) (body : PrescriptionRequest)
    (appt : AppointmentDoc) : PrescriptionDoc :=
  { appointment_id := body.appointment_id, doctor_id := doctor_id,
    patient_id := appt.patient_id, notes := body.notes,
    medications := body.medications, follow_up_date := body.follow_up_date }

/-- Whatever the insurance lookup does on a zero subtotal, any discount it
returns is zero (`discount = 0 * coverage/100` on the policy path). -/
theorem insuranceStep_zero_subtotal (db : DB) (appt : AppointmentDoc)
    (body : BillingRequest) (d : ℚ) (note : Option String)
    (h : insuranceStep db appt body 0 = Except.ok (d, note)) : d = 0 := by
  unfold insuranceStep at h
  split at h
  · cases h; rfl
  · split at h
    · cases h; rfl
    · split at h
      · cases h
      · split at h
        · cases h; rfl
        · cases h; exact zero_mul _

/-! ## Claim theorems -/

/-- C8: for every doctor id, the stats endpoint returns
`salary = N × R` where `N` is the number of that doctor's appointments with
status `"completed"` and `R` is the doctor profile's `rate_per_point`
(defaulting to `100.0` when no profile exists), and `points = N`. -/
theorem doctor_stats_salary_formula (db : DB) (doctor_id : String) :
    doctor_stats db doctor_id =
      { treated_patients := completedCount db doctor_id,
        points := completedCount db doctor_id,
        salary := (completedCount db doctor_id : ℚ) * doctorRate db doctor_id } := by
  simp [doctor_stats, completedCount, doctorRate, List.countP_eq_length_filter]

/-- C2 (code bug): on a malformed identifier the billing endpoint does not
raise `HTTPException(400)`: the handlers call `ObjectId(...)` directly, so
the call surfaces an uncaught `bson.errors.InvalidId` (HTTP 500) instead,
while the unused helper `to_object_id` — the only place producing a 400 —
would have returned `HTTPException(400, "Invalid id")`.  Evaluated at the
malformed id `"xyz"`. -/
theorem invalid_id_uncaught_not_400 :
    (generate_bill dbW "xyz" { operation_id := none, roomtype_name := none }).2 =
        Except.error ApiError.invalidId ∧
    (add_prescription dbW "d1"
        { appointment_id := "xyz", notes := none, medications := [],
          follow_up_date := none }).2 = Except.error ApiError.invalidId ∧
    ApiError.invalidId ≠ ApiError.http 400 "Invalid id" ∧
    to_object_id "xyz" = Except.error (ApiError.http 400 "Invalid id") := by
  have hx : objectIdValid "xyz" = false := by decide
  refine ⟨?_, ?_, by decide, ?_⟩
  · simp [generate_bill, hx]
  · simp [add_prescription, hx]
  · simp [to_object_id, hx]

/-- C3 (code bug): the admin insurance endpoint accepts any
`coverage_percent` — its request model `InsuranceCreate` carries no
`ge`/`le` bound (unlike the unused `schemas.Insurancepolicy`) and the
accessor persists the fields unchanged — so a stored policy can violate
`coverage_percent ∈ [0,100]`.  Evaluated at `coverage_percent = 150`. -/
theorem create_insurance_stores_out_of_range_coverage :
    ((create_insurance dbEmpty
        { name := "megacover", allowed_roomtypes := [],
          coverage_percent := 150 }).1).insurancepolicy =
      [{ id := "oid0", name := "megacover", allowed_roomtypes := some [],
         coverage_percent := some 150 }] ∧
    ¬ coverageInRange
        { id := "oid0", name := "megacover", allowed_roomtypes := some [],
          coverage_percent := some 150 } := by
  constructor
  · rfl
  · intro hcontra
    have h2 := hcontra.2
    norm_num [coverageInRange] at h2

/-- C1: whenever the billing computation reaches the insurance path with an
applicable policy — appointment found, operation and room steps succeeding
with charges `s1` and `s2` (so the subtotal is `S = s1 + s2`), a patient
profile referencing an existing policy of coverage `C ∈ [0,100]`, with
`S ≥ 0` — the endpoint returns `discount = S × C/100` and
`total = max(0, S − discount)`, and the same four values (subtotal,
discount, total, details) are returned to the caller and persisted in the
`billing` document. -/
theorem generate_bill_discount_and_total_formula
    (db : DB) (appointment_id : String) (body : BillingRequest)
    (appt : AppointmentDoc) (patient : PatientProfileDoc)
    (pol : InsurancePolicyDoc) (s1 s2 : ℚ) (opD roomD : Option ItemDetail)
    (hid : objectIdValid appointment_id = true)
    (ha : db.appointment.find? (fun a => a.id == appointment_id) = some appt)
    (hop : operationCharge db body = Except.ok (s1, opD))
    (hrm : roomCharge db body = Except.ok (s2, roomD))
    (hp : db.patientprofile.find? (fun p => p.user_id == appt.patient_id) = some patient)
    (htr : truthy patient.insurance_policy_id = true)
    (hpv : objectIdValid (patient.insurance_policy_id.getD "") = true)
    (hpol : db.insurancepolicy.find?
        (fun q => q.id == patient.insurance_policy_id.getD "") = some pol)
    (hS : 0 ≤ s1 + s2)
    (hC0 : 0 ≤ pol.coverage_percent.getD 0)
    (hC1 : pol.coverage_percent.getD 0 ≤ 100) :
    (generate_bill db appointment_id body).2 =
      Except.ok
        { billing_id := freshId db, subtotal := s1 + s2,
          discount := (s1 + s2) * (pol.coverage_percent.getD 0 / 100),
          total := max 0 ((s1 + s2) - (s1 + s2) * (pol.coverage_percent.getD 0 / 100)),
          details := { operation := opD, room := roomD, insurance_note := insNote pol body } } ∧
    (generate_bill db appointment_id body).1.billing =
      db.billing ++
        [{ appointment_id := appointment_id, subtotal := s1 + s2,
           insurance_discount := (s1 + s2) * (pol.coverage_percent.getD 0 / 100),
           total := max 0 ((s1 + s2) - (s1 + s2) * (pol.coverage_percent.getD 0 / 100)),
           details := { operation := opD, room := roomD, insurance_note := insNote pol body } }] := by
  have hins : insuranceStep db appt body (s1 + s2) =
      Except.ok ((s1 + s2) * (pol.coverage_percent.getD 0 / 100), insNote pol body) := by
    simp [insuranceStep, hp, htr, hpv, hpol]
  constructor <;> simp [generate_bill, hid, ha, hop, hrm, hins]

/-- C4: a billing request whose (well-formed) `operation_id` matches no
operation document gets a 404 response and leaves the store — in particular
the `billing` collection — untouched: the `HTTPException` is raised before
`create_document` runs.  (When the appointment itself is also missing the
response is the appointment 404, still with no write.) -/
theorem generate_bill_missing_operation_404
    (db : DB) (appointment_id : String) (body : BillingRequest)
    (hid : objectIdValid appointment_id = true)
    (hopid : truthy body.operation_id = true)
    (hopv : objectIdValid (body.operation_id.getD "") = true)
    (hnone : db.operation.find? (fun o => o.id == body.operation_id.getD "") = none) :
    (∃ d, (generate_bill db appointment_id body).2 =
        Except.error (ApiError.http 404 d)) ∧
    (generate_bill db appointment_id body).1 = db ∧
    (generate_bill db appointment_id body).1.billing = db.billing := by
  cases ha : db.appointment.find? (fun a => a.id == appointment_id) with
  | none =>
      refine ⟨⟨"Appointment not found", ?_⟩, ?_, ?_⟩ <;> simp [generate_bill, hid, ha]
  | some appt =>
      have hop : operationCharge db body =
          Except.error (ApiError.http 404 "Operation not found") := by
        simp [operationCharge, hopid, hopv, hnone]
      refine ⟨⟨"Operation not found", ?_⟩, ?_, ?_⟩ <;> simp [generate_bill, hid, ha, hop]

/-- C5: when the patient's policy exists but its allowed room-type list does
not contain the requested room, billing still completes and applies the full
coverage discount; the only effect of the mismatch is the advisory
`insurance_note` in the details. -/
theorem generate_bill_room_not_allowed_still_discounts
    (db : DB) (appointment_id : String) (body : BillingRequest)
    (appt : AppointmentDoc) (patient : PatientProfileDoc)
    (pol : InsurancePolicyDoc) (s1 s2 : ℚ) (opD roomD : Option ItemDetail)
    (hid : objectIdValid appointment_id = true)
    (ha : db.appointment.find? (fun a => a.id == appointment_id) = some appt)
    (hop : operationCharge db body = Except.ok (s1, opD))
    (hrm : roomCharge db body = Except.ok (s2, roomD))
    (hroom : truthy body.roomtype_name = true)
    (hp : db.patientprofile.find? (fun p => p.user_id == appt.patient_id) = some patient)
    (htr : truthy patient.insurance_policy_id = true)
    (hpv : objectIdValid (patient.insurance_policy_id.getD "") = true)
    (hpol : db.insurancepolicy.find?
        (fun q => q.id == patient.insurance_policy_id.getD "") = some pol)
    (hnotallowed :
      (pol.allowed_roomtypes.getD []).contains (body.roomtype_name.getD "") = false) :
    (generate_bill db appointment_id body).2 =
      Except.ok
        { billing_id := freshId db, subtotal := s1 + s2,
          discount := (s1 + s2) * (pol.coverage_percent.getD 0 / 100),
          total := max 0 ((s1 + s2) - (s1 + s2) * (pol.coverage_percent.getD 0 / 100)),
          details := { operation := opD, room := roomD,
                       insurance_note :=
                         some "Selected room type not covered by insurance" } } := by
  have hmem : body.roomtype_name.getD "" ∉ pol.allowed_roomtypes.getD [] := by
    simpa using hnotallowed
  have hnote : insNote pol body = some "Selected room type not covered by insurance" := by
    simp [insNote, hroom, hmem]
  have hins : insuranceStep db appt body (s1 + s2) =
      Except.ok ((s1 + s2) * (pol.coverage_percent.getD 0 / 100),
        some "Selected room type not covered by insurance") := by
    simp [insuranceStep, hp, htr, hpv, hpol, hnote]
  simp [generate_bill, hid, ha, hop, hrm, hins]

/-- C6: a billing request for an existing appointment that supplies neither
an operation id nor a room-type name yields (and persists) subtotal 0,
discount 0 and total 0.  The `hins` hypothesis states that the insurance
lookup itself returns (rather than crashing on a malformed stored policy
reference); any discount it can return on the zero subtotal is zero. -/
theorem generate_bill_no_items_all_zero
    (db : DB) (appointment_id : String) (body : BillingRequest)
    (appt : AppointmentDoc) (d : ℚ) (note : Option String)
    (hid : objectIdValid appointment_id = true)
    (ha : db.appointment.find? (fun a => a.id == appointment_id) = some appt)
    (hop : truthy body.operation_id = false)
    (hrm : truthy body.roomtype_name = false)
    (hins : insuranceStep db appt body 0 = Except.ok (d, note)) :
    (generate_bill db appointment_id body).2 =
      Except.ok
        { billing_id := freshId db, subtotal := 0, discount := 0, total := 0,
          details := { operation := none, room := none, insurance_note := note } } ∧
    (generate_bill db appointment_id body).1.billing =
      db.billing ++
        [{ appointment_id := appointment_id, subtotal := 0,
           insurance_discount := 0, total := 0,
           details := { operation := none, room := none, insurance_note := note } }] := by
  have hd : d = 0 := insuranceStep_zero_subtotal db appt body d note hins
  subst hd
  have hopc : operationCharge db body = Except.ok (0, none) := by
    simp [operationCharge, hop]
  have hrmc : roomCharge db body = Except.ok (0, none) := by
    simp [roomCharge, hrm]
  constructor <;> simp [generate_bill, hid, ha, hopc, hrmc, hins]

/-- C7: when the appointment's patient has no profile document, or the
profile has no (truthy) insurance policy reference, or the referenced policy
document is missing, the computed discount is 0 and the total equals the
subtotal (which requires the subtotal to be nonnegative, the spec's
`prices ≥ 0` invariant). -/
theorem generate_bill_no_policy_zero_discount
    (db : DB) (appointment_id : String) (body : BillingRequest)
    (appt : AppointmentDoc) (s1 s2 : ℚ) (opD roomD : Option ItemDetail)
    (hid : objectIdValid appointment_id = true)
    (ha : db.appointment.find? (fun a => a.id == appointment_id) = some appt)
    (hop : operationCharge db body = Except.ok (s1, opD))
    (hrm : roomCharge db body = Except.ok (s2, roomD))
    (hS : 0 ≤ s1 + s2)
    (hcase :
      db.patientprofile.find? (fun p => p.user_id == appt.patient_id) = none ∨
      (∃ patient,
        db.patientprofile.find? (fun p => p.user_id == appt.patient_id) = some patient ∧
        truthy patient.insurance_policy_id = false) ∨
      (∃ patient,
        db.patientprofile.find? (fun p => p.user_id == appt.patient_id) = some patient ∧
        truthy patient.insurance_policy_id = true ∧
        objectIdValid (patient.insurance_policy_id.getD "") = true ∧
        db.insurancepolicy.find?
          (fun q => q.id == patient.insurance_policy_id.getD "") = none)) :
    (generate_bill db appointment_id body).2 =
      Except.ok
        { billing_id := freshId db, subtotal := s1 + s2, discount := 0,
          total := s1 + s2,
          details := { operation := opD, room := roomD, insurance_note := none } } := by
  have hins : insuranceStep db appt body (s1 + s2) = Except.ok (0, none) := by
    rcases hcase with h | ⟨patient, hp, htr⟩ | ⟨patient, hp, htr, hpv, hnone⟩
    · simp [insuranceStep, h]
    · simp [insuranceStep, hp, htr]
    · simp [insuranceStep, hp, htr, hpv, hnone]
  have htot : max 0 ((s1 + s2) - 0) = s1 + s2 := by
    rw [sub_zero]
    exact max_eq_right hS
  simp [generate_bill, hid, ha, hop, hrm, hins, htot]
  exact hS

/-- After any `login` call, a user matching `(email, role)` is present: the
call either found one or just inserted one. -/
theorem login_found_after (db : DB) (req : LoginRequest) :
    ∃ u, ((login db req).1).user.find?
        (fun v => v.email == req.email && v.role == req.role) = some u := by
  cases h : db.user.find? (fun v => v.email == req.email && v.role == req.role) with
  | some u => exact ⟨u, by simp [login, h]⟩
  | none =>
      refine ⟨{ id := freshId db, name := emailLocalPart req.email,
                email := req.email, role := req.role }, ?_⟩
      have hu : ((login db req).1).user =
          db.user ++ [{ id := freshId db, name := emailLocalPart req.email,
                        email := req.email, role := req.role }] := by
        by_cases hd : (req.role == "doctor") = true <;>
        by_cases hpt : (req.role == "patient") = true <;>
          simp [login, h, hd, hpt]
      rw [hu, List.find?_append, h]
      simp [List.find?]

/-- When the `(email, role)` lookup succeeds, `login` performs no write at
all: it returns the store unchanged together with the found user. -/
theorem login_found_case (db : DB) (req : LoginRequest) (u : UserDoc)
    (h : db.user.find? (fun v => v.email == req.email && v.role == req.role) = some u) :
    login db req = (db, some u) := by
  simp [login, h]

/-- C9: login is idempotent on the store — a second call with the same
`(email, role)` finds the user created (or found) by the first call and
performs no user or profile creation: it leaves the entire store (hence the
user collection) unchanged, and still returns a user. -/
theorem login_idempotent_on_user_collection (db : DB) (req : LoginRequest) :
    (login (login db req).1 req).1 = (login db req).1 ∧
    ((login (login db req).1 req).2).isSome = true := by
  obtain ⟨u, hu⟩ := login_found_after db req
  rw [login_found_case _ _ _ hu]
  exact ⟨rfl, rfl⟩

/-- C10: a prescription created through the doctor prescription endpoint
copies its `patient_id` from the fetched appointment document: the store
gains exactly one prescription, whose `patient_id` is the appointment's, so
every prescription in the resulting store either pre-existed or names the
appointment's patient. -/
theorem add_prescription_copies_patient_id
    (db : DB) (doctor_id : String) (body : PrescriptionRequest)
    (appt : AppointmentDoc)
    (hid : objectIdValid body.appointment_id = true)
    (ha : db.appointment.find? (fun a => a.id == body.appointment_id) = some appt) :
    (add_prescription db doctor_id body).1.prescription =
      db.prescription ++ [prescOf doctor_id body appt] ∧
    (prescOf doctor_id body appt).patient_id = appt.patient_id ∧
    ∀ p ∈ (add_prescription db doctor_id body).1.prescription,
      p ∈ db.prescription ∨ p.patient_id = appt.patient_id := by
  have h1 : (add_prescription db doctor_id body).1.prescription =
      db.prescription ++ [prescOf doctor_id body appt] := by
    simp [add_prescription, hid, ha, prescOf]
  refine ⟨h1, rfl, ?_⟩
  intro p hp
  rw [h1] at hp
  rcases List.mem_append.mp hp with h | h
  · exact Or.inl h
  · simp only [List.mem_singleton] at h
    subst h
    exact Or.inr rfl

/-! ## Witnesses at the concrete store `dbW` -/

/-- Witness for C1: operation 500 + room 300 under the 20% policy. -/
theorem generate_bill_discount_and_total_formula_witness :
    (generate_bill dbW "aaaaaaaaaaaaaaaaaaaaaaaa" billBodyFull).2 =
      Except.ok
        { billing_id := freshId dbW, subtotal := (500 : ℚ) + 300,
          discount := ((500 : ℚ) + 300) * (polAcme.coverage_percent.getD 0 / 100),
          total := max 0 (((500 : ℚ) + 300) -
            ((500 : ℚ) + 300) * (polAcme.coverage_percent.getD 0 / 100)),
          details := { operation := some { name := some "surgery", price := 500 },
                       room := some { name := some "deluxe", price := 300 },
                       insurance_note := insNote polAcme billBodyFull } } ∧
    (generate_bill dbW "aaaaaaaaaaaaaaaaaaaaaaaa" billBodyFull).1.billing =
      dbW.billing ++
        [{ appointment_id := "aaaaaaaaaaaaaaaaaaaaaaaa", subtotal := (500 : ℚ) + 300,
           insurance_discount := ((500 : ℚ) + 300) * (polAcme.coverage_percent.getD 0 / 100),
           total := max 0 (((500 : ℚ) + 300) -
             ((500 : ℚ) + 300) * (polAcme.coverage_percent.getD 0 / 100)),
           details := { operation := some { name := some "surgery", price := 500 },
                        room := some { name := some "deluxe", price := 300 },
                        insurance_note := insNote polAcme billBodyFull } }] :=
  generate_bill_discount_and_total_formula dbW "aaaaaaaaaaaaaaaaaaaaaaaa" billBodyFull
    apptA profileP1 polAcme 500 300
    (some { name := some "surgery", price := 500 })
    (some { name := some "deluxe", price := 300 })
    (by decide) (by decide) (by rfl) (by rfl) (by decide) (by decide) (by decide)
    (by decide) (by norm_num) (by norm_num [polAcme]) (by norm_num [polAcme])

/-- Witness for C4: a well-formed but unknown `operation_id`. -/
theorem generate_bill_missing_operation_404_witness :
    (∃ d, (generate_bill dbW "aaaaaaaaaaaaaaaaaaaaaaaa"
        { operation_id := some "dddddddddddddddddddddddd",
          roomtype_name := none }).2 = Except.error (ApiError.http 404 d)) ∧
    (generate_bill dbW "aaaaaaaaaaaaaaaaaaaaaaaa"
        { operation_id := some "dddddddddddddddddddddddd",
          roomtype_name := none }).1 = dbW ∧
    (generate_bill dbW "aaaaaaaaaaaaaaaaaaaaaaaa"
        { operation_id := some "dddddddddddddddddddddddd",
          roomtype_name := none }).1.billing = dbW.billing :=
  generate_bill_missing_operation_404 dbW "aaaaaaaaaaaaaaaaaaaaaaaa"
    { operation_id := some "dddddddddddddddddddddddd", roomtype_name := none }
    (by decide) (by decide) (by decide) (by decide)

/-- Witness for C5: room `"deluxe"` is not in the policy's `["normal"]`. -/
theorem generate_bill_room_not_allowed_still_discounts_witness :
    (generate_bill dbW "aaaaaaaaaaaaaaaaaaaaaaaa" billBodyFull).2 =
      Except.ok
        { billing_id := freshId dbW, subtotal := (500 : ℚ) + 300,
          discount := ((500 : ℚ) + 300) * (polAcme.coverage_percent.getD 0 / 100),
          total := max 0 (((500 : ℚ) + 300) -
            ((500 : ℚ) + 300) * (polAcme.coverage_percent.getD 0 / 100)),
          details := { operation := some { name := some "surgery", price := 500 },
                       room := some { name := some "deluxe", price := 300 },
                       insurance_note :=
                         some "Selected room type not covered by insurance" } } :=
  generate_bill_room_not_allowed_still_discounts dbW "aaaaaaaaaaaaaaaaaaaaaaaa"
    billBodyFull apptA profileP1 polAcme 500 300
    (some { name := some "surgery", price := 500 })
    (some { name := some "deluxe", price := 300 })
    (by decide) (by decide) (by rfl) (by rfl) (by decide) (by decide) (by decide)
    (by decide) (by decide) (by decide)

/-- Witness for C6: no operation and no room on the existing appointment. -/
theorem generate_bill_no_items_all_zero_witness :
    (generate_bill dbW "aaaaaaaaaaaaaaaaaaaaaaaa"
        { operation_id := none, roomtype_name := none }).2 =
      Except.ok
        { billing_id := freshId dbW, subtotal := 0, discount := 0, total := 0,
          details := { operation := none, room := none, insurance_note := none } } ∧
    (generate_bill dbW "aaaaaaaaaaaaaaaaaaaaaaaa"
        { operation_id := none, roomtype_name := none }).1.billing =
      dbW.billing ++
        [{ appointment_id := "aaaaaaaaaaaaaaaaaaaaaaaa", subtotal := 0,
           insurance_discount := 0, total := 0,
           details := { operation := none, room := none, insurance_note := none } }] :=
  generate_bill_no_items_all_zero dbW "aaaaaaaaaaaaaaaaaaaaaaaa"
    { operation_id := none, roomtype_name := none } apptA
    (0 * (polAcme.coverage_percent.getD 0 / 100)) none
    (by decide) (by decide) (by decide) (by decide) (by rfl)

/-- Witness for C7: the appointment of patient `"p2"`, who has no patient
profile, with the 500-priced operation. -/
theorem generate_bill_no_policy_zero_discount_witness :
    (generate_bill dbW "eeeeeeeeeeeeeeeeeeeeeeee"
        { operation_id := some "bbbbbbbbbbbbbbbbbbbbbbbb",
          roomtype_name := none }).2 =
      Except.ok
        { billing_id := freshId dbW, subtotal := (500 : ℚ) + 0, discount := 0,
          total := (500 : ℚ) + 0,
          details := { operation := some { name := some "surgery", price := 500 },
                       room := none, insurance_note := none } } :=
  generate_bill_no_policy_zero_discount dbW "eeeeeeeeeeeeeeeeeeeeeeee"
    { operation_id := some "bbbbbbbbbbbbbbbbbbbbbbbb", roomtype_name := none }
    apptE 500 0 (some { name := some "surgery", price := 500 }) none
    (by decide) (by decide) (by rfl) (by rfl) (by norm_num)
    (Or.inl (by decide))

/-- Witness for C10: a prescription on the completed appointment of `"p1"`. -/
theorem add_prescription_copies_patient_id_witness :
    (add_prescription dbW "d1"
        { appointment_id := "aaaaaaaaaaaaaaaaaaaaaaaa", notes := none,
          medications := [], follow_up_date := none }).1.prescription =
      dbW.prescription ++
        [prescOf "d1"
          { appointment_id := "aaaaaaaaaaaaaaaaaaaaaaaa", notes := none,
            medications := [], follow_up_date := none } apptA] ∧
    (prescOf "d1"
        { appointment_id := "aaaaaaaaaaaaaaaaaaaaaaaa", notes := none,
          medications := [], follow_up_date := none } apptA).patient_id =
      apptA.patient_id ∧
    ∀ p ∈ (add_prescription dbW "d1"
        { appointment_id := "aaaaaaaaaaaaaaaaaaaaaaaa", notes := none,
          medications := [], follow_up_date := none }).1.prescription,
      p ∈ dbW.prescription ∨ p.patient_id = apptA.patient_id :=
  add_prescription_copies_patient_id dbW "d1"
    { appointment_id := "aaaaaaaaaaaaaaaaaaaaaaaa", notes := none,
      medications := [], follow_up_date := none } apptA
    (by decide) (by decide)
